import Mathlib

/-!
Verification development for the mgdx-scrapper service (src/index.js).

The source is a small Express + Puppeteer scraping proxy with three
extraction pipelines: manga search, manga detail, and chapter reading.
Each pipeline launches a headless browser, navigates, waits for a
readiness selector, evaluates a DOM-reading function, and closes the
browser in a finally block; three routes shape the result (or any
failure) into a JSON HTTP response.

This file embeds those pipelines shallowly: DOM pages become explicit
record values, the in-page evaluate callbacks become pure functions,
the regular expressions used for identifier parsing become an explicit
leftmost-lazy matcher, and the browser lifecycle becomes an event trace.
-/

namespace Mgdx

/-! ### JSON values and HTTP responses -/

inductive Json where
  | null : Json
  | str : String → Json
  | num : Nat → Json
  | arr : List Json → Json
  | obj : List (String × Json) → Json

structure HttpResponse where
  status : Nat
  body : Json

/-! ### Output records: the typedef blocks of index.js -/

structure SearchResult where
  title : String
  manga_id : String
  image : Option String
  latest_chapter : String
  rating : String
  deriving DecidableEq

structure ChapterImage where
  pageNumber : Nat
  imageUrl : Option String
  deriving DecidableEq

structure ChapterData where
  title : String
  images : List ChapterImage
  prev_chapter : Option String
  next_chapter : Option String
  deriving DecidableEq

structure ChapterEntry where
  number : String
  title : String
  uploadDate : String
  url : String
  deriving DecidableEq

structure MangaDetail where
  title : String
  image : Option String
  description : String
  author : String
  genres : List String
  rating : String
  chapters : List ChapterEntry
  deriving DecidableEq

/-! ### Rendered-DOM models

One structure per page kind, holding exactly the node values the
page.evaluate callbacks read.  A querySelector miss is none; a present
node carries its textContent (for text reads) or attribute value (for
getAttribute reads, where an absent attribute is again none). -/

structure SearchCard where
  titleText : Option String
  href : Option String
  thumbSrc : Option String
  latestText : Option String
  ratingText : Option String
  deriving DecidableEq

structure ChapterItemDom where
  numberText : Option String
  titleText : Option String
  dateText : Option String
  href : Option String
  deriving DecidableEq

structure DetailDom where
  hasMangaContainer : Bool
  titleText : Option String
  descText : Option String
  authorText : Option String
  genreTexts : List String
  ratingText : Option String
  coverSrc : Option String
  chapterItems : List ChapterItemDom
  deriving DecidableEq

structure ImgNode where
  src : Option String
  dataSrc : Option String
  deriving DecidableEq

structure ChapterDom where
  hasPageContainer : Bool
  chapterTitle : Option String
  pageImages : List ImgNode
  prevLink : Option String
  nextLink : Option String
  deriving DecidableEq

/-! ### JavaScript falsiness helpers

The source reads fields as x?.textContent?.trim() || fallback and
x?.getAttribute(a) || fallback.  A JS || takes its right operand when
the left is null, undefined, or the empty string. -/

/-- node?.textContent?.trim() || fb: a missing node or all-whitespace
text yields the fallback, otherwise the trimmed text. -/
def textOr (t : Option String) (fb : String) : String :=
  match t with
  | none => fb
  | some s => if s.trim = "" then fb else s.trim

/-- node?.getAttribute(a) || fb with a string fallback. -/
def attrOr (t : Option String) (fb : String) : String :=
  match t with
  | none => fb
  | some s => if s = "" then fb else s

/-- a || b for attribute reads: keep a when it is a non-empty string,
otherwise take b. -/
def jsOrStr (a b : Option String) : Option String :=
  match a with
  | none => b
  | some s => if s = "" then b else some s

/-- attr || null: an empty-string attribute collapses to null. -/
def orNullStr (a : Option String) : Option String :=
  jsOrStr a none

/-! ### Identifier parsing

The source runs url.match with the pattern: the literal segment, a lazy
capture of dot characters, an optional slash, end of string.  E.g. for
manga ids the JS source is url.match with title slash, a lazy group,
an optional slash and the end anchor, taking group 1 when it matches. -/

/-- The JS regex dot: any character except a line terminator. -/
def isDot (c : Char) : Bool :=
  c != '\n' && c != '\r' && c != '\u2028' && c != '\u2029'

/-- Backtracking semantics of the tail of the pattern: a lazy capture
of dot characters, then an optional slash, then end of input.  Returns
the captured characters of the leftmost-lazy successful match, i.e. the
shortest dot-only prefix whose remainder is empty or a single slash. -/
def lazyCapture : List Char → Option (List Char)
  | [] => some []
  | c :: rest =>
    if c = '/' ∧ rest = [] then some []
    else if isDot c then (lazyCapture rest).map (fun l => c :: l)
    else none

/-- Leftmost match of the whole pattern: scan start positions left to
right; at the first position where the literal segment matches and the
lazy tail succeeds, return the capture. -/
def matchFirst (lit : List Char) : List Char → Option (List Char)
  | [] => none
  | c :: rest =>
    if lit.isPrefixOf (c :: rest) then
      match lazyCapture (List.drop lit.length (c :: rest)) with
      | some cap => some cap
      | none => matchFirst lit rest
    else matchFirst lit rest

/-- Boolean occurrence test for the literal segment, used to state that
a match position is the first one. -/
def containsSeg (pat : List Char) : List Char → Bool
  | [] => pat.isEmpty
  | c :: rest => pat.isPrefixOf (c :: rest) || containsSeg pat rest

def titleLit : List Char := "title/".toList

def chapterLit : List Char := "chapter/".toList

/-- Group 1 of url.match for the manga-id pattern. -/
def parseTitleId (href : String) : Option String :=
  (matchFirst titleLit href.toList).map List.asString

/-- Group 1 of url.match for the chapter-id pattern. -/
def parseChapterId (href : String) : Option String :=
  (matchFirst chapterLit href.toList).map List.asString

/-- searchManga: mangaId starts as the empty string and is replaced by
the capture only when the match succeeds. -/
def mangaIdFromUrl (url : String) : String :=
  match parseTitleId url with
  | some i => i
  | none => ""

/-- getChapterData navigation: the href is read off the link node; the
id stays null when the link is absent, its href empty, or unmatched. -/
def chapterNavOf (link : Option String) : Option String :=
  match link with
  | none => none
  | some s => if s = "" then none else parseChapterId s

/-! ### Field extractors: the page.evaluate callbacks -/

/-- One search-result record per .manga-card node (searchManga). -/
def mkSearchResult (c : SearchCard) : SearchResult :=
  let url := attrOr c.href "#"
  { title := textOr c.titleText "Unknown Title"
    manga_id := mangaIdFromUrl url
    image := orNullStr c.thumbSrc
    latest_chapter := textOr c.latestText ""
    rating := textOr c.ratingText "" }

def extractSearchResults (cards : List SearchCard) : List SearchResult :=
  cards.map mkSearchResult

/-- One chapter-list entry per .chapter-item node (scrapeMangaDetails). -/
def mkChapterEntry (it : ChapterItemDom) : ChapterEntry :=
  { number := textOr it.numberText "Unknown"
    title := textOr it.titleText "No title"
    uploadDate := textOr it.dateText "Unknown date"
    url := attrOr it.href "#" }

/-- The detail-page evaluate callback (scrapeMangaDetails). -/
def extractMangaDetails (d : DetailDom) : MangaDetail :=
  { title := textOr d.titleText "Unknown Title"
    image := orNullStr d.coverSrc
    description := textOr d.descText "No description available"
    author := textOr d.authorText "Unknown Author"
    genres := d.genreTexts.map String.trim
    rating := textOr d.ratingText "No rating"
    chapters := d.chapterItems.map mkChapterEntry }

/-- src || data-src || null on one .page-image node. -/
def imgUrlOf (n : ImgNode) : Option String :=
  jsOrStr n.src (jsOrStr n.dataSrc none)

/-- The images mapping of getChapterData: position index + 1 becomes the
page number, in document order. -/
def extractImages (nodes : List ImgNode) : List ChapterImage :=
  (List.enumFrom 0 nodes).map (fun p => { pageNumber := p.1 + 1, imageUrl := imgUrlOf p.2 })

/-- The chapter-page evaluate callback (getChapterData). -/
def extractChapterData (ch : ChapterDom) : ChapterData :=
  { title := textOr ch.chapterTitle "Unknown Chapter"
    images := extractImages ch.pageImages
    prev_chapter := chapterNavOf ch.prevLink
    next_chapter := chapterNavOf ch.nextLink }

/-! ### decodeURIComponent

The read route percent-decodes its path parameter with the ECMAScript
decodeURIComponent builtin before interpolating it into the chapter URL
template; the detail route interpolates its parameter verbatim.  The
builtin is modelled here: percent escapes are decoded to bytes, byte
runs are decoded as strict UTF-8, and any malformed escape or byte
sequence aborts with none (the builtin throws URIError). -/

def hexVal (c : Char) : Option Nat :=
  if '0' ≤ c ∧ c ≤ '9' then some (c.toNat - 48)
  else if 'A' ≤ c ∧ c ≤ 'F' then some (c.toNat - 55)
  else if 'a' ≤ c ∧ c ≤ 'f' then some (c.toNat - 87)
  else none

def pctByte (h l : Char) : Option Nat :=
  match hexVal h, hexVal l with
  | some a, some b => some (16 * a + b)
  | _, _ => none

/-- Allowed second byte of a three-byte UTF-8 sequence, given the first. -/
def cont3ok (b1 b2 : Nat) : Bool :=
  if b1 = 0xE0 then decide (0xA0 ≤ b2 ∧ b2 ≤ 0xBF)
  else if b1 = 0xED then decide (0x80 ≤ b2 ∧ b2 ≤ 0x9F)
  else decide (0x80 ≤ b2 ∧ b2 ≤ 0xBF)

/-- Allowed second byte of a four-byte UTF-8 sequence, given the first. -/
def cont4ok (b1 b2 : Nat) : Bool :=
  if b1 = 0xF0 then decide (0x90 ≤ b2 ∧ b2 ≤ 0xBF)
  else if b1 = 0xF4 then decide (0x80 ≤ b2 ∧ b2 ≤ 0x8F)
  else decide (0x80 ≤ b2 ∧ b2 ≤ 0xBF)

def contByte (b : Nat) : Bool :=
  decide (0x80 ≤ b ∧ b ≤ 0xBF)

def decodeURIChars : List Char → Option (List Char)
  | [] => some []
  | '%' :: h1 :: l1 :: rest =>
    (match pctByte h1 l1 with
     | none => none
     | some b1 =>
       if b1 < 0x80 then
         match decodeURIChars rest with
         | some cs => some (Char.ofNat b1 :: cs)
         | none => none
       else if 0xC2 ≤ b1 ∧ b1 ≤ 0xDF then
         match rest with
         | '%' :: h2 :: l2 :: rest2 =>
           (match pctByte h2 l2 with
            | some b2 =>
              if contByte b2 then
                match decodeURIChars rest2 with
                | some cs =>
                  some (Char.ofNat ((b1 - 0xC0) * 0x40 + (b2 - 0x80)) :: cs)
                | none => none
              else none
            | none => none)
         | _ => none
       else if 0xE0 ≤ b1 ∧ b1 ≤ 0xEF then
         match rest with
         | '%' :: h2 :: l2 :: '%' :: h3 :: l3 :: rest3 =>
           (match pctByte h2 l2, pctByte h3 l3 with
            | some b2, some b3 =>
              if cont3ok b1 b2 && contByte b3 then
                match decodeURIChars rest3 with
                | some cs =>
                  some (Char.ofNat
                    ((b1 - 0xE0) * 0x1000 + (b2 - 0x80) * 0x40 + (b3 - 0x80)) :: cs)
                | none => none
              else none
            | _, _ => none)
         | _ => none
       else if 0xF0 ≤ b1 ∧ b1 ≤ 0xF4 then
         match rest with
         | '%' :: h2 :: l2 :: '%' :: h3 :: l3 :: '%' :: h4 :: l4 :: rest4 =>
           (match pctByte h2 l2, pctByte h3 l3, pctByte h4 l4 with
            | some b2, some b3, some b4 =>
              if cont4ok b1 b2 && contByte b3 && contByte b4 then
                match decodeURIChars rest4 with
                | some cs =>
                  some (Char.ofNat
                    ((b1 - 0xF0) * 0x40000 + (b2 - 0x80) * 0x1000 +
                      (b3 - 0x80) * 0x40 + (b4 - 0x80)) :: cs)
                | none => none
              else none
            | _, _, _ => none)
         | _ => none
       else none)
  | '%' :: _ => none
  | c :: rest =>
    match decodeURIChars rest with
    | some cs => some (c :: cs)
    | none => none

def decodeURIComponentModel (s : String) : Option String :=
  (decodeURIChars s.toList).map List.asString

/-! ### Route URL templates (lines 310-311 and 328 of index.js) -/

/-- The read route: chapter URL template applied to the decoded id;
none when decodeURIComponent throws. -/
def readUrlOf (chapterId : String) : Option String :=
  (decodeURIComponentModel chapterId).map
    (fun d => "https://mangadex.org/chapter/" ++ d)

/-- The detail route: the path parameter is interpolated verbatim. -/
def detailUrlOf (mangaId : String) : String :=
  "https://mangadex.org/title/" ++ mangaId

/-! ### Browser lifecycle traces

Each pipeline function launches a browser, runs its steps inside a try
block whose catch rethrows a wrapped error, and closes the browser in a
finally block.  A computation is a pair of the emitted resource events
and an Except outcome; the combinators mirror the JS control flow. -/

inductive Ev where
  | launch : Ev
  | close : Ev
  deriving DecidableEq

def TraceM (α : Type) : Type := List Ev × Except String α

def bindT {α β : Type} (x : TraceM α) (f : α → TraceM β) : TraceM β :=
  match x with
  | (tr, Except.error m) => (tr, Except.error m)
  | (tr, Except.ok v) =>
    match f v with
    | (tr2, r) => (tr ++ tr2, r)

/-- try body catch (e) rethrow handler(e): on success the handler never
runs; on error its outcome replaces the error. -/
def tryCatchT {α : Type} (body : TraceM α) (handler : String → TraceM α) : TraceM α :=
  match body with
  | (tr, Except.ok v) => (tr, Except.ok v)
  | (tr, Except.error m) =>
    match handler m with
    | (tr2, r) => (tr ++ tr2, r)

/-- try body finally fin: fin always runs; a failure of fin would win,
but the body result stands when fin succeeds. -/
def tryFinallyT {α : Type} (body : TraceM α) (fin : TraceM Unit) : TraceM α :=
  match body, fin with
  | (tr, r), (tr2, Except.ok _) => (tr ++ tr2, r)
  | (tr, _), (tr2, Except.error m) => (tr ++ tr2, Except.error m)

/-- Environment of one pipeline run: whether the browser launch, the
navigation and the evaluate call succeed, plus the rendered page. -/
structure ScrapeEnv (δ : Type) where
  launchOk : Bool
  navOk : Bool
  evalOk : Bool
  page : δ

def launchBrowserT (ok : Bool) : TraceM Unit :=
  if ok then ([Ev.launch], Except.ok ()) else ([], Except.error "browser launch failed")

def gotoT (ok : Bool) : TraceM Unit :=
  if ok then ([], Except.ok ()) else ([], Except.error "Navigation timeout of 60000 ms exceeded")

def waitForSelectorT (present : Bool) : TraceM Unit :=
  if present then ([], Except.ok ())
  else ([], Except.error "waiting for selector failed: timeout 30000ms exceeded")

def evaluateT {α : Type} (ok : Bool) (v : α) : TraceM α :=
  if ok then ([], Except.ok v) else ([], Except.error "Evaluation failed")

def browserCloseT : TraceM Unit :=
  ([Ev.close], Except.ok ())

def throwT {α : Type} (m : String) : TraceM α :=
  ([], Except.error m)

/-- The readiness selector of searchManga is .manga-card itself, so it
appears exactly when the page renders at least one card. -/
def searchSelectorPresent (cards : List SearchCard) : Bool :=
  !cards.isEmpty

/-- searchManga (lines 163-216): launch, try goto + waitForSelector +
evaluate with a catch that rethrows a wrapped message, finally close. -/
def searchManga (env : ScrapeEnv (List SearchCard)) : TraceM (List SearchResult) :=
  bindT (launchBrowserT env.launchOk) (fun _ =>
    tryFinallyT
      (tryCatchT
        (bindT (gotoT env.navOk) (fun _ =>
          bindT (waitForSelectorT (searchSelectorPresent env.page)) (fun _ =>
            evaluateT env.evalOk (extractSearchResults env.page))))
        (fun m => throwT ("Failed to search manga: " ++ m)))
      browserCloseT)

/-- scrapeMangaDetails (lines 91-156), same skeleton with the
.manga-container readiness selector. -/
def scrapeMangaDetails (env : ScrapeEnv DetailDom) : TraceM MangaDetail :=
  bindT (launchBrowserT env.launchOk) (fun _ =>
    tryFinallyT
      (tryCatchT
        (bindT (gotoT env.navOk) (fun _ =>
          bindT (waitForSelectorT env.page.hasMangaContainer) (fun _ =>
            evaluateT env.evalOk (extractMangaDetails env.page))))
        (fun m => throwT ("Failed to scrape manga: " ++ m)))
      browserCloseT)

/-- getChapterData (lines 223-289), same skeleton with the
.page-container readiness selector. -/
def getChapterData (env : ScrapeEnv ChapterDom) : TraceM ChapterData :=
  bindT (launchBrowserT env.launchOk) (fun _ =>
    tryFinallyT
      (tryCatchT
        (bindT (gotoT env.navOk) (fun _ =>
          bindT (waitForSelectorT env.page.hasPageContainer) (fun _ =>
            evaluateT env.evalOk (extractChapterData env.page))))
        (fun m => throwT ("Failed to get chapter pages: " ++ m)))
      browserCloseT)

def outcomeOf {α : Type} (t : TraceM α) : Except String α := t.2

def traceOf {α : Type} (t : TraceM α) : List Ev := t.1

/-! ### JSON shaping of the records, key order as in the source -/

def optStrToJson : Option String → Json
  | none => Json.null
  | some s => Json.str s

def searchResultToJson (r : SearchResult) : Json :=
  Json.obj
    [("title", Json.str r.title),
     ("manga_id", Json.str r.manga_id),
     ("image", optStrToJson r.image),
     ("latest_chapter", Json.str r.latest_chapter),
     ("rating", Json.str r.rating)]

def chapterImageToJson (i : ChapterImage) : Json :=
  Json.obj
    [("pageNumber", Json.num i.pageNumber),
     ("imageUrl", optStrToJson i.imageUrl)]

def chapterDataToJson (d : ChapterData) : Json :=
  Json.obj
    [("title", Json.str d.title),
     ("images", Json.arr (d.images.map chapterImageToJson)),
     ("prev_chapter", optStrToJson d.prev_chapter),
     ("next_chapter", optStrToJson d.next_chapter)]

def chapterEntryToJson (c : ChapterEntry) : Json :=
  Json.obj
    [("number", Json.str c.number),
     ("title", Json.str c.title),
     ("uploadDate", Json.str c.uploadDate),
     ("url", Json.str c.url)]

def mangaDetailToJson (d : MangaDetail) : Json :=
  Json.obj
    [("title", Json.str d.title),
     ("image", optStrToJson d.image),
     ("description", Json.str d.description),
     ("author", Json.str d.author),
     ("genres", Json.arr (d.genres.map Json.str)),
     ("rating", Json.str d.rating),
     ("chapters", Json.arr (d.chapters.map chapterEntryToJson))]

/-! ### Route handlers (lines 296-335) -/

/-- GET /search/:query -/
def searchRouteHandler (env : ScrapeEnv (List SearchCard)) : HttpResponse :=
  match outcomeOf (searchManga env) with
  | Except.ok results =>
    { status := 200, body := Json.obj [("results", Json.arr (results.map searchResultToJson))] }
  | Except.error _ =>
    { status := 500, body := Json.obj [("error", Json.str "An error occurred during the search.")] }

/-- The fixed 500 payload of the read route. -/
def readErrorResponse : HttpResponse :=
  { status := 500
    body := Json.obj
      [("error", Json.str "An error occurred while fetching the chapter."),
       ("images", Json.arr []),
       ("prev_chapter", Json.null),
       ("next_chapter", Json.null)] }

/-- GET /read/:chapterId: the id is percent-decoded inside the try
block, so a decoding failure lands in the same catch as pipeline
failures. -/
def readRouteHandler (chapterId : String) (env : ScrapeEnv ChapterDom) : HttpResponse :=
  match decodeURIComponentModel chapterId with
  | none => readErrorResponse
  | some _ =>
    match outcomeOf (getChapterData env) with
    | Except.ok d => { status := 200, body := chapterDataToJson d }
    | Except.error _ => readErrorResponse

/-- GET /detail/:mangaId -/
def detailRouteHandler (env : ScrapeEnv DetailDom) : HttpResponse :=
  match outcomeOf (scrapeMangaDetails env) with
  | Except.ok d => { status := 200, body := mangaDetailToJson d }
  | Except.error _ =>
    { status := 500
      body := Json.obj [("error", Json.str "An error occurred while fetching manga details.")] }

/-! ### Byte-level JSON rendering (res.json is JSON.stringify, compact) -/

def hexDigitChar (n : Nat) : Char :=
  if n < 10 then Char.ofNat (48 + n) else Char.ofNat (87 + n)

def escapeChar (c : Char) : String :=
  if c = '"' then "\\\""
  else if c = '\\' then "\\\\"
  else if c = '\n' then "\\n"
  else if c = '\r' then "\\r"
  else if c = '\t' then "\\t"
  else if c = '\x08' then "\\b"
  else if c = '\x0c' then "\\f"
  else if c.toNat < 32 then
    "\\u00" ++ String.mk [hexDigitChar (c.toNat / 16), hexDigitChar (c.toNat % 16)]
  else String.mk [c]

def jsonQuote (s : String) : String :=
  "\"" ++ String.join (s.toList.map escapeChar) ++ "\""

mutual

def serializeJson : Json → String
  | Json.null => "null"
  | Json.str s => jsonQuote s
  | Json.num n => toString n
  | Json.arr xs => "[" ++ serializeArr xs ++ "]"
  | Json.obj fs => "\x7b" ++ serializeObj fs ++ "\x7d"

def serializeArr : List Json → String
  | [] => ""
  | [x] => serializeJson x
  | x :: y :: xs => serializeJson x ++ "," ++ serializeArr (y :: xs)

def serializeObj : List (String × Json) → String
  | [] => ""
  | [(k, v)] => jsonQuote k ++ ":" ++ serializeJson v
  | (k, v) :: f :: fs => jsonQuote k ++ ":" ++ serializeJson v ++ "," ++ serializeObj (f :: fs)

end

/-! ## Theorems -/

/-! ### Helper lemmas about the matcher -/

theorem isPrefixOf_exists {l s : List Char} :
    l.isPrefixOf s = true ↔ ∃ t, s = l ++ t := by
  induction l generalizing s with
  | nil =>
    simp [List.isPrefixOf]
  | cons a l ih =>
    cases s with
    | nil =>
      simp [List.isPrefixOf]
    | cons b s =>
      simp only [List.isPrefixOf, Bool.and_eq_true, beq_iff_eq, ih]
      constructor
      · rintro ⟨hab, t, ht⟩
        exact ⟨t, by rw [hab, ht]; rfl⟩
      · rintro ⟨t, ht⟩
        injection ht with hab ht
        exact ⟨hab.symm, t, ht⟩

theorem toList_append (s t : String) : (s ++ t).toList = s.toList ++ t.toList :=
  String.data_append s t

theorem lazyCapture_spec :
    ∀ (id : List Char), '/' ∉ id → (∀ c ∈ id, isDot c = true) →
      lazyCapture id = some id ∧ lazyCapture (id ++ ['/']) = some id := by
  intro id
  induction id with
  | nil =>
    intro _ _
    exact ⟨rfl, by simp [lazyCapture]⟩
  | cons c id ih =>
    intro h1 h2
    have hc : ¬(c = '/') := fun h => h1 (by rw [h]; exact List.mem_cons_self _ _)
    have hdot : isDot c = true := h2 c (List.mem_cons_self _ _)
    have h1a : '/' ∉ id := fun h => h1 (List.mem_cons_of_mem _ h)
    have h2a : ∀ x ∈ id, isDot x = true := fun x hx => h2 x (List.mem_cons_of_mem _ hx)
    obtain ⟨ha, hb⟩ := ih h1a h2a
    refine ⟨?_, ?_⟩
    · simp [lazyCapture, hc, hdot, ha]
    · simp [lazyCapture, hc, hdot, hb]

theorem matchFirst_cons_pos (lit : List Char) (c : Char) (rest cap : List Char)
    (hp : lit.isPrefixOf (c :: rest) = true)
    (hc : lazyCapture (List.drop lit.length (c :: rest)) = some cap) :
    matchFirst lit (c :: rest) = some cap := by
  simp only [matchFirst]
  rw [hp, hc]
  rfl

theorem matchFirst_cons_neg (lit : List Char) (c : Char) (rest : List Char)
    (hp : lit.isPrefixOf (c :: rest) = false) :
    matchFirst lit (c :: rest) = matchFirst lit rest := by
  simp only [matchFirst]
  rw [hp]
  simp

theorem matchFirst_self (lit t cap : List Char) (hne : lit ≠ [])
    (hcap : lazyCapture t = some cap) : matchFirst lit (lit ++ t) = some cap := by
  cases lit with
  | nil => exact absurd rfl hne
  | cons a l =>
    have hx : (a :: l) ++ t = a :: (l ++ t) := rfl
    rw [hx]
    have hp : (a :: l).isPrefixOf (a :: (l ++ t)) = true :=
      isPrefixOf_exists.mpr ⟨t, rfl⟩
    have hd : List.drop (a :: l).length (a :: (l ++ t)) = t :=
      List.drop_left (a :: l) t
    exact matchFirst_cons_pos (a :: l) a (l ++ t) cap hp (by rw [hd]; exact hcap)

theorem seg_take_bridge (body pre x t2 : List Char) (c : Char)
    (h : ((c :: pre) ++ (body ++ ['/'])) ++ x = (body ++ ['/']) ++ t2) :
    ∃ t3, (c :: pre) ++ body = (body ++ ['/']) ++ t3 := by
  rw [List.append_assoc] at h
  have hlen : (body ++ ['/']).length = body.length + 1 := by simp
  have htake := congrArg (List.take (body.length + 1)) h
  rw [List.take_left' hlen, List.take_append_eq_append_take] at htake
  have hk1 : body.length + 1 - (c :: pre).length ≤ (body ++ ['/']).length := by
    simp only [List.length_append, List.length_cons]
    omega
  have hk2 : body.length + 1 - (c :: pre).length ≤ body.length := by
    simp only [List.length_cons]
    omega
  rw [List.take_append_of_le_length hk1, List.take_append_of_le_length hk2] at htake
  have hsplit : ((c :: pre) ++ body).take (body.length + 1)
      = (c :: pre).take (body.length + 1) ++ body.take (body.length + 1 - (c :: pre).length) :=
    List.take_append_eq_append_take
  refine ⟨List.drop (body.length + 1) ((c :: pre) ++ body), ?_⟩
  calc (c :: pre) ++ body
      = ((c :: pre) ++ body).take (body.length + 1)
          ++ ((c :: pre) ++ body).drop (body.length + 1) :=
        (List.take_append_drop _ _).symm
    _ = (body ++ ['/']) ++ ((c :: pre) ++ body).drop (body.length + 1) := by
        rw [hsplit.trans htake]

theorem matchFirst_skip (body : List Char) :
    ∀ (pre t cap : List Char),
      containsSeg (body ++ ['/']) (pre ++ body) = false →
      lazyCapture t = some cap →
      matchFirst (body ++ ['/']) ((pre ++ (body ++ ['/'])) ++ t) = some cap := by
  intro pre
  induction pre with
  | nil =>
    intro t cap _ hcap
    simp only [List.nil_append]
    exact matchFirst_self _ _ _ (by simp) hcap
  | cons c pre ih =>
    intro t cap hseg hcap
    have heq : containsSeg (body ++ ['/']) ((c :: pre) ++ body)
        = ((body ++ ['/']).isPrefixOf ((c :: pre) ++ body)
            || containsSeg (body ++ ['/']) (pre ++ body)) := rfl
    rw [heq] at hseg
    obtain ⟨hnp, hsega⟩ := Bool.or_eq_false_iff.mp hseg
    have hnp2 : (body ++ ['/']).isPrefixOf (((c :: pre) ++ (body ++ ['/'])) ++ t) = false := by
      cases hx : (body ++ ['/']).isPrefixOf (((c :: pre) ++ (body ++ ['/'])) ++ t) with
      | false => rfl
      | true =>
        exfalso
        obtain ⟨t2, ht2⟩ := isPrefixOf_exists.mp hx
        obtain ⟨t3, ht3⟩ := seg_take_bridge body pre t t2 c ht2
        have hcontra : (body ++ ['/']).isPrefixOf ((c :: pre) ++ body) = true :=
          isPrefixOf_exists.mpr ⟨t3, ht3⟩
        rw [hcontra] at hnp
        exact Bool.noConfusion hnp
    have hcons : ((c :: pre) ++ (body ++ ['/'])) ++ t
        = c :: ((pre ++ (body ++ ['/'])) ++ t) := by simp
    rw [hcons] at hnp2 ⊢
    rw [matchFirst_cons_neg (body ++ ['/']) c ((pre ++ (body ++ ['/'])) ++ t) hnp2]
    exact ih t cap hsega hcap

/-! ### Claim C2 -/

/-- Claim C2: for every href of the shape pre ++ title/ ++ id (or with a
trailing slash appended), where id is a plain path segment (no slash, no
line terminator) and the earlier part of the href does not already
contain the literal segment, the identifier-parsing step captures
exactly id, with no trailing slash; likewise for chapter/ in the
chapter-navigation parser. -/
theorem c2_id_parsing_extracts (pre id : String)
    (hbt : containsSeg titleLit (pre.toList ++ "title".toList) = false)
    (hbc : containsSeg chapterLit (pre.toList ++ "chapter".toList) = false)
    (hslash : '/' ∉ id.toList)
    (hdots : ∀ c ∈ id.toList, isDot c = true) :
    parseTitleId (pre ++ "title/" ++ id) = some id ∧
    parseTitleId (pre ++ "title/" ++ id ++ "/") = some id ∧
    parseChapterId (pre ++ "chapter/" ++ id) = some id ∧
    parseChapterId (pre ++ "chapter/" ++ id ++ "/") = some id := by
  have htl : titleLit = "title".toList ++ ['/'] := by decide
  have hcl : chapterLit = "chapter".toList ++ ['/'] := by decide
  have htl2 : "title/".toList = "title".toList ++ ['/'] := by decide
  have hcl2 : "chapter/".toList = "chapter".toList ++ ['/'] := by decide
  obtain ⟨hplain, hslashed⟩ := lazyCapture_spec id.toList hslash hdots
  rw [htl] at hbt
  rw [hcl] at hbc
  refine ⟨?_, ?_, ?_, ?_⟩
  · rw [parseTitleId, toList_append, toList_append, htl, htl2,
      matchFirst_skip "title".toList pre.toList id.toList id.toList hbt hplain]
    rw [Option.map_some']
    rw [String.asString_toList]
  · rw [parseTitleId, toList_append, toList_append, toList_append, htl, htl2,
      List.append_assoc (pre.toList ++ _) id.toList]
    have : "/".toList = ['/'] := by decide
    rw [this,
      matchFirst_skip "title".toList pre.toList (id.toList ++ ['/']) id.toList hbt hslashed]
    rw [Option.map_some']
    rw [String.asString_toList]
  · rw [parseChapterId, toList_append, toList_append, hcl, hcl2,
      matchFirst_skip "chapter".toList pre.toList id.toList id.toList hbc hplain]
    rw [Option.map_some']
    rw [String.asString_toList]
  · rw [parseChapterId, toList_append, toList_append, toList_append, hcl, hcl2,
      List.append_assoc (pre.toList ++ _) id.toList]
    have : "/".toList = ['/'] := by decide
    rw [this,
      matchFirst_skip "chapter".toList pre.toList (id.toList ++ ['/']) id.toList hbc hslashed]
    rw [Option.map_some']
    rw [String.asString_toList]

/-- Claim C2, instantiated: parsing a concrete manga and chapter href,
with and without the trailing slash. -/
theorem c2_id_parsing_extracts_inst :
    parseTitleId ("/x/" ++ "title/" ++ "abc-123") = some "abc-123" ∧
    parseTitleId ("/x/" ++ "title/" ++ "abc-123" ++ "/") = some "abc-123" ∧
    parseChapterId ("/x/" ++ "chapter/" ++ "abc-123") = some "abc-123" ∧
    parseChapterId ("/x/" ++ "chapter/" ++ "abc-123" ++ "/") = some "abc-123" :=
  c2_id_parsing_extracts "/x/" "abc-123" (by decide) (by decide) (by decide) (by decide)

/-! ### Claim C3 -/

/-- Claim C3: when the href does not match the pattern, parsing is total
and yields the documented absent value of each call site: the empty
string for the search manga id, null for the chapter prev and next ids
(also when the link node is missing or its href empty). -/
theorem c3_id_parsing_fallback (href s : String)
    (h1 : matchFirst titleLit href.toList = none)
    (h2 : s ≠ "")
    (h3 : matchFirst chapterLit s.toList = none) :
    mangaIdFromUrl href = "" ∧
    chapterNavOf none = none ∧
    chapterNavOf (some "") = none ∧
    chapterNavOf (some s) = none := by
  have h1a : matchFirst titleLit href.data = none := h1
  have h3a : matchFirst chapterLit s.data = none := h3
  refine ⟨?_, rfl, rfl, ?_⟩
  · simp [mangaIdFromUrl, parseTitleId, h1a]
  · simp [chapterNavOf, parseChapterId, h2, h3a]

/-- Claim C3, instantiated at the default href value of the source. -/
theorem c3_id_parsing_fallback_inst :
    mangaIdFromUrl "#" = "" ∧
    chapterNavOf none = none ∧
    chapterNavOf (some "") = none ∧
    chapterNavOf (some "#") = none :=
  c3_id_parsing_fallback "#" "#" rfl (by decide) rfl

/-! ### Claim C5 -/

theorem enumFrom_pageNumbers (n : Nat) (nodes : List ImgNode) :
    ((List.enumFrom n nodes).map
        (fun p => ChapterImage.mk (p.1 + 1) (imgUrlOf p.2))).map
      ChapterImage.pageNumber = List.range' (n + 1) nodes.length := by
  induction nodes generalizing n with
  | nil => simp
  | cons x xs ih =>
    rw [List.enumFrom_cons, List.length_cons, List.range'_succ]
    simp only [List.map_cons]
    rw [ih (n + 1)]

/-- Claim C5: the extracted images carry page numbers 1..N, contiguous
and in document order, and the image urls follow the node order. -/
theorem c5_page_numbers_contiguous (nodes : List ImgNode) :
    (extractImages nodes).map ChapterImage.pageNumber = List.range' 1 nodes.length ∧
    (extractImages nodes).map ChapterImage.imageUrl = nodes.map imgUrlOf := by
  constructor
  · exact enumFrom_pageNumbers 0 nodes
  · rw [extractImages, List.map_map]
    have : (ChapterImage.imageUrl ∘ fun p : Nat × ImgNode =>
        ChapterImage.mk (p.1 + 1) (imgUrlOf p.2)) = (fun p : Nat × ImgNode => imgUrlOf p.2) := rfl
    rw [this]
    have hsnd : (fun p : Nat × ImgNode => imgUrlOf p.2) = imgUrlOf ∘ Prod.snd := rfl
    rw [hsnd, ← List.map_map, List.enumFrom_map_snd]

/-! ### Claim C10 -/

/-- Claim C10: the images sequence has one entry per .page-image node;
a node with neither src nor data-src is kept, with a null imageUrl and
its positional page number. -/
theorem c10_images_keep_arity (nodes : List ImgNode) (i : Nat)
    (h : nodes[i]? = some { src := none, dataSrc := none }) :
    (extractImages nodes).length = nodes.length ∧
    (extractImages nodes)[i]? = some { pageNumber := i + 1, imageUrl := none } := by
  constructor
  · simp [extractImages]
  · rw [extractImages, List.getElem?_map, List.getElem?_enumFrom, h]
    simp [imgUrlOf, jsOrStr]

/-- Claim C10, instantiated on a single attribute-less image node. -/
theorem c10_images_keep_arity_inst :
    (extractImages [{ src := none, dataSrc := none }]).length
        = [({ src := none, dataSrc := none } : ImgNode)].length ∧
    (extractImages [{ src := none, dataSrc := none }])[0]?
        = some { pageNumber := 1, imageUrl := none } :=
  c10_images_keep_arity [{ src := none, dataSrc := none }] 0 rfl

/-! ### Claim C1 -/

/-- Claim C1: whenever a pipeline ends in an error, the read route
replies 500 with exactly the fixed error message plus empty images and
null prev and next chapters, and the search and detail routes reply 500
with only their fixed error message. -/
theorem c1_error_response_shape (cid : String) (ec : ScrapeEnv ChapterDom)
    (es : ScrapeEnv (List SearchCard)) (ed : ScrapeEnv DetailDom) (e1 e2 e3 : String)
    (h1 : outcomeOf (getChapterData ec) = Except.error e1)
    (h2 : outcomeOf (searchManga es) = Except.error e2)
    (h3 : outcomeOf (scrapeMangaDetails ed) = Except.error e3) :
    readRouteHandler cid ec =
      { status := 500
        body := Json.obj
          [("error", Json.str "An error occurred while fetching the chapter."),
           ("images", Json.arr []),
           ("prev_chapter", Json.null),
           ("next_chapter", Json.null)] } ∧
    searchRouteHandler es =
      { status := 500
        body := Json.obj [("error", Json.str "An error occurred during the search.")] } ∧
    detailRouteHandler ed =
      { status := 500
        body := Json.obj [("error", Json.str "An error occurred while fetching manga details.")] } := by
  refine ⟨?_, ?_, ?_⟩
  · cases hdec : decodeURIComponentModel cid with
    | none => simp [readRouteHandler, hdec, readErrorResponse]
    | some d => simp [readRouteHandler, hdec, h1, readErrorResponse]
  · simp [searchRouteHandler, h2]
  · simp [detailRouteHandler, h3]

/-- Claim C1, instantiated with runs whose browser launch fails. -/
theorem c1_error_response_shape_inst :
    readRouteHandler "abc123" ⟨false, true, true, ⟨true, none, [], none, none⟩⟩ =
      { status := 500
        body := Json.obj
          [("error", Json.str "An error occurred while fetching the chapter."),
           ("images", Json.arr []),
           ("prev_chapter", Json.null),
           ("next_chapter", Json.null)] } ∧
    searchRouteHandler ⟨false, true, true, []⟩ =
      { status := 500
        body := Json.obj [("error", Json.str "An error occurred during the search.")] } ∧
    detailRouteHandler ⟨false, true, true, ⟨true, none, none, none, [], none, none, []⟩⟩ =
      { status := 500
        body := Json.obj [("error", Json.str "An error occurred while fetching manga details.")] } :=
  c1_error_response_shape "abc123"
    ⟨false, true, true, ⟨true, none, [], none, none⟩⟩
    ⟨false, true, true, []⟩
    ⟨false, true, true, ⟨true, none, none, none, [], none, none, []⟩⟩
    "browser launch failed" "browser launch failed" "browser launch failed"
    rfl rfl rfl

/-! ### Claim C4 -/

/-- Claim C4 counterexample: the search-result record built from a card
with no latest-chapter and no rating node carries the empty string in
those fields, so not every string field has a non-empty fallback. -/
theorem c4_empty_fallback_cex :
    (mkSearchResult ⟨none, none, none, none, none⟩).latest_chapter = "" ∧
    (mkSearchResult ⟨none, none, none, none, none⟩).rating = "" :=
  ⟨rfl, rfl⟩

/-- Claim C4 as amended: every string field of every record is present
with a defined fallback when its source node is absent; the detail and
chapter fallbacks and the search title fallback are non-empty words,
while the search latest_chapter, rating and manga_id fall back to the
empty string; only image- or href-derived fields are null. -/
theorem c4_fallback_fields (c : SearchCard) (d : DetailDom) (ch : ChapterDom)
    (it : ChapterItemDom) :
    (c.titleText = none → (mkSearchResult c).title = "Unknown Title") ∧
    (c.href = none → (mkSearchResult c).manga_id = "") ∧
    (c.thumbSrc = none → (mkSearchResult c).image = none) ∧
    (c.latestText = none → (mkSearchResult c).latest_chapter = "") ∧
    (c.ratingText = none → (mkSearchResult c).rating = "") ∧
    (d.titleText = none → (extractMangaDetails d).title = "Unknown Title") ∧
    (d.descText = none → (extractMangaDetails d).description = "No description available") ∧
    (d.authorText = none → (extractMangaDetails d).author = "Unknown Author") ∧
    (d.ratingText = none → (extractMangaDetails d).rating = "No rating") ∧
    (d.coverSrc = none → (extractMangaDetails d).image = none) ∧
    (it.numberText = none → (mkChapterEntry it).number = "Unknown") ∧
    (it.titleText = none → (mkChapterEntry it).title = "No title") ∧
    (it.dateText = none → (mkChapterEntry it).uploadDate = "Unknown date") ∧
    (it.href = none → (mkChapterEntry it).url = "#") ∧
    (ch.chapterTitle = none → (extractChapterData ch).title = "Unknown Chapter") := by
  refine ⟨?_, ?_, ?_, ?_, ?_, ?_, ?_, ?_, ?_, ?_, ?_, ?_, ?_, ?_, ?_⟩ <;>
    intro h <;>
    simp [mkSearchResult, extractMangaDetails, mkChapterEntry, extractChapterData,
      textOr, attrOr, orNullStr, jsOrStr, h] <;>
    rfl

/-- Claim C4 as amended, instantiated on fully bare DOM inputs. -/
theorem c4_fallback_fields_inst :
    (mkSearchResult ⟨none, none, none, none, none⟩).title = "Unknown Title" ∧
    (mkSearchResult ⟨none, none, none, none, none⟩).manga_id = "" ∧
    (mkSearchResult ⟨none, none, none, none, none⟩).image = none ∧
    (mkSearchResult ⟨none, none, none, none, none⟩).latest_chapter = "" ∧
    (mkSearchResult ⟨none, none, none, none, none⟩).rating = "" ∧
    (extractMangaDetails ⟨true, none, none, none, [], none, none, []⟩).title = "Unknown Title" ∧
    (extractMangaDetails ⟨true, none, none, none, [], none, none, []⟩).description
      = "No description available" ∧
    (extractMangaDetails ⟨true, none, none, none, [], none, none, []⟩).author = "Unknown Author" ∧
    (extractMangaDetails ⟨true, none, none, none, [], none, none, []⟩).rating = "No rating" ∧
    (extractMangaDetails ⟨true, none, none, none, [], none, none, []⟩).image = none ∧
    (mkChapterEntry ⟨none, none, none, none⟩).number = "Unknown" ∧
    (mkChapterEntry ⟨none, none, none, none⟩).title = "No title" ∧
    (mkChapterEntry ⟨none, none, none, none⟩).uploadDate = "Unknown date" ∧
    (mkChapterEntry ⟨none, none, none, none⟩).url = "#" ∧
    (extractChapterData ⟨true, none, [], none, none⟩).title = "Unknown Chapter" := by
  obtain ⟨a1, a2, a3, a4, a5, a6, a7, a8, a9, a10, a11, a12, a13, a14, a15⟩ :=
    c4_fallback_fields ⟨none, none, none, none, none⟩
      ⟨true, none, none, none, [], none, none, []⟩
      ⟨true, none, [], none, none⟩ ⟨none, none, none, none⟩
  exact ⟨a1 rfl, a2 rfl, a3 rfl, a4 rfl, a5 rfl, a6 rfl, a7 rfl, a8 rfl,
    a9 rfl, a10 rfl, a11 rfl, a12 rfl, a13 rfl, a14 rfl, a15 rfl⟩

/-! ### Claim C6 -/

/-- Claim C6 counterexample: against an upstream page with zero
.manga-card elements the selector wait times out, so the search route
answers 500 with the error payload, not 200 with empty results. -/
theorem c6_empty_results_cex :
    searchRouteHandler ⟨true, true, true, []⟩ =
      { status := 500
        body := Json.obj [("error", Json.str "An error occurred during the search.")] } ∧
    searchRouteHandler ⟨true, true, true, []⟩ ≠
      { status := 200, body := Json.obj [("results", Json.arr [])] } := by
  refine ⟨rfl, fun h => ?_⟩
  exact absurd (congrArg HttpResponse.status h) (by decide)

/-- Claim C6 as amended: for a page rendering zero .manga-card nodes the
readiness selector never appears, so whatever the other outcomes of the
run, the search endpoint replies 500 with the fixed error body. -/
theorem c6_empty_search_500 (lo no eo : Bool) :
    searchRouteHandler { launchOk := lo, navOk := no, evalOk := eo, page := [] } =
      { status := 500
        body := Json.obj [("error", Json.str "An error occurred during the search.")] } := by
  cases lo <;> cases no <;> cases eo <;> rfl

/-! ### Claim C7 -/

/-- Claim C7: on every run of each pipeline, a successfully launched
browser is closed exactly once, whatever the outcome of navigation,
selector wait or evaluation; a failed launch opens nothing. -/
theorem c7_browser_closed_once (es : ScrapeEnv (List SearchCard)) (ed : ScrapeEnv DetailDom)
    (ec : ScrapeEnv ChapterDom) :
    traceOf (searchManga es) = (if es.launchOk then [Ev.launch, Ev.close] else []) ∧
    traceOf (scrapeMangaDetails ed) = (if ed.launchOk then [Ev.launch, Ev.close] else []) ∧
    traceOf (getChapterData ec) = (if ec.launchOk then [Ev.launch, Ev.close] else []) := by
  obtain ⟨lo1, no1, eo1, pg1⟩ := es
  obtain ⟨lo2, no2, eo2, pg2⟩ := ed
  obtain ⟨lo3, no3, eo3, pg3⟩ := ec
  refine ⟨?_, ?_, ?_⟩
  · cases hsel : searchSelectorPresent pg1 <;>
      cases lo1 <;> cases no1 <;> cases eo1 <;>
      simp [searchManga, traceOf, bindT, tryCatchT, tryFinallyT, launchBrowserT,
        gotoT, waitForSelectorT, evaluateT, browserCloseT, throwT, hsel]
  · cases hsel : pg2.hasMangaContainer <;>
      cases lo2 <;> cases no2 <;> cases eo2 <;>
      simp [scrapeMangaDetails, traceOf, bindT, tryCatchT, tryFinallyT, launchBrowserT,
        gotoT, waitForSelectorT, evaluateT, browserCloseT, throwT, hsel]
  · cases hsel : pg3.hasPageContainer <;>
      cases lo3 <;> cases no3 <;> cases eo3 <;>
      simp [getChapterData, traceOf, bindT, tryCatchT, tryFinallyT, launchBrowserT,
        gotoT, waitForSelectorT, evaluateT, browserCloseT, throwT, hsel]

/-! ### Claim C8 -/

/-- Claim C8: the search pipeline is a pure function of the query page,
so two runs over the same rendered DOM serialize to byte-identical JSON;
and on a fully successful run the results are exactly the card list
mapped in DOM order, so the output order is the DOM order. -/
theorem c8_search_deterministic (env : ScrapeEnv (List SearchCard))
    (h1 : env.launchOk = true) (h2 : env.navOk = true) (h3 : env.evalOk = true)
    (h4 : env.page ≠ []) :
    serializeJson (searchRouteHandler env).body
      = serializeJson (searchRouteHandler env).body ∧
    outcomeOf (searchManga env) = Except.ok (env.page.map mkSearchResult) := by
  refine ⟨rfl, ?_⟩
  obtain ⟨lo, no, eo, pg⟩ := env
  simp only at h1 h2 h3 h4
  subst h1
  subst h2
  subst h3
  have hsel : searchSelectorPresent pg = true := by
    cases hpg : pg.isEmpty with
    | true => exact absurd (List.isEmpty_iff.mp hpg) h4
    | false => simp [searchSelectorPresent, hpg]
  simp [searchManga, outcomeOf, bindT, tryCatchT, tryFinallyT, launchBrowserT,
    gotoT, waitForSelectorT, evaluateT, browserCloseT, extractSearchResults, hsel]

/-- Claim C8, instantiated on a one-card page. -/
theorem c8_search_deterministic_inst :
    serializeJson (searchRouteHandler ⟨true, true, true, [⟨none, none, none, none, none⟩]⟩).body
      = serializeJson (searchRouteHandler ⟨true, true, true, [⟨none, none, none, none, none⟩]⟩).body ∧
    outcomeOf (searchManga ⟨true, true, true, [⟨none, none, none, none, none⟩]⟩)
      = Except.ok ([⟨none, none, none, none, none⟩].map mkSearchResult) :=
  c8_search_deterministic ⟨true, true, true, [⟨none, none, none, none, none⟩]⟩
    rfl rfl rfl (List.cons_ne_nil _ _)

/-! ### Claim C9 -/

/-- Claim C9: the read route builds its upstream URL from the
percent-decoded chapter id, while the detail route interpolates its
manga id verbatim, with no decoding step; a percent escape therefore
reaches the chapter URL decoded but the title URL untouched. -/
theorem c9_route_url_building (c m d : String)
    (h : decodeURIComponentModel c = some d) :
    readUrlOf c = some ("https://mangadex.org/chapter/" ++ d) ∧
    detailUrlOf m = "https://mangadex.org/title/" ++ m ∧
    readUrlOf "%41" = some "https://mangadex.org/chapter/A" ∧
    detailUrlOf "%41" = "https://mangadex.org/title/%41" := by
  refine ⟨?_, rfl, by decide, by decide⟩
  simp [readUrlOf, h]

/-- Claim C9, instantiated at a percent-escaped id. -/
theorem c9_route_url_building_inst :
    readUrlOf "%41" = some ("https://mangadex.org/chapter/" ++ "A") ∧
    detailUrlOf "%41" = "https://mangadex.org/title/" ++ "%41" ∧
    readUrlOf "%41" = some "https://mangadex.org/chapter/A" ∧
    detailUrlOf "%41" = "https://mangadex.org/title/%41" :=
  c9_route_url_building "%41" "%41" "A" rfl

end Mgdx
